import Mathlib

/-!
Shallow embedding of `src/server.js`, a minimal Express blogging backend
(user registration/login, CRUD on posts with optional image upload).

External collaborators (bcrypt, jsonwebtoken, mongoose, multer) are modelled
as parameters or small faithful functions:
* bcrypt: a `Crypto` record with `hash` and `compare`;
* jsonwebtoken: `jwt.verify` is a parameter `verify : String → Option Identity`;
  `jwt.sign` is modelled by recording the signed payload and options;
* mongoose: the document store is a `DB` record of lists; `findById` casts the
  `:id` parameter to an ObjectId first and throws a CastError if it is not a
  well-formed ObjectId string;
* multer: `diskStorage.filename` computes `Date.now() + path.extname(originalname)`.

Machine state is passed explicitly; every handler returns `Response × DB`
(or just `Response` when it does not write).
-/

namespace Blog

/-- The decoded JWT identity attached to `req.user` (payload of `jwt.sign`
at server.js:108: `\x7b userId, username \x7d`). -/
structure Identity where
  userId : String
  username : String
deriving DecidableEq, Repr

/-- A stored User document (userSchema, server.js:38-42); `password` holds the
bcrypt hash; `createdAt` from `timestamps: true`. -/
structure User where
  id : String
  username : String
  email : String
  password : String
  createdAt : Nat
deriving DecidableEq, Repr

/-- A stored Post document (postSchema, server.js:47-53). `image` is `none`
when the field is null/absent. -/
structure Post where
  id : String
  title : String
  content : String
  image : Option String
  author : String
  authorName : String
  createdAt : Nat
deriving DecidableEq, Repr

/-- The document store: Users and Posts collections. -/
structure DB where
  users : List User
  posts : List Post
deriving DecidableEq, Repr

/-- bcryptjs, modelled abstractly: `hash` is one-way hashing (cost factor
elided), `compare plaintext stored` is hash verification. -/
structure Crypto where
  hash : String → String
  compare : String → String → Bool

/-- The recorded result of `jwt.sign(payload, secret, \x7b expiresIn \x7d)`
(server.js:107-111): the payload and the expiry option. -/
structure TokenRecord where
  payload : Identity
  expiresIn : String
deriving DecidableEq, Repr

/-- The public user projection returned by login (server.js:115):
`\x7b id, username, email \x7d` — no password field exists here. -/
structure UserProj where
  id : String
  username : String
  email : String
deriving DecidableEq, Repr

/-- JSON response bodies the server produces. -/
inductive RespBody where
  | msg (message : String)
  | msgErr (message error : String)
  | loginOk (token : TokenRecord) (user : UserProj)
  | onePost (p : Post)
  | manyPosts (ps : List Post)
deriving DecidableEq, Repr

/-- An HTTP response: status code and JSON body. -/
structure Response where
  status : Nat
  body : RespBody
deriving DecidableEq, Repr

/-- Node's `path.extname` restricted to plain file names: the suffix from the
last `.` onward, unless that `.` is the leading character (or there is none),
in which case `""`. -/
def extname (s : String) : String :=
  let cs := s.toList
  match (List.range cs.length).filter (fun i => cs.get? i = some '.') |>.getLast? with
  | none => ""
  | some i => if i = 0 then "" else String.mk (cs.drop i)

/-- multer `diskStorage.filename` (server.js:33):
`Date.now() + path.extname(file.originalname)`. -/
def multerFilename (now : Nat) (originalname : String) : String :=
  toString now ++ extname originalname

/-- Mongoose ObjectId validity for a string id: a 24-character hex string
(or a 12-character string, which mongoose also accepts). -/
def isValidObjectId (s : String) : Bool :=
  (s.length = 24 && s.toList.all (fun c => c.isDigit || ('a' ≤ c && c ≤ 'f') || ('A' ≤ c && c ≤ 'F')))
    || s.length = 12

/-- `Post.findById(id)`: mongoose first casts `id` to ObjectId — an ill-formed
id throws a CastError (modelled as `Except.error`); otherwise the post with
that id, if any. -/
def findById (db : DB) (id : String) : Except String (Option Post) :=
  if isValidObjectId id then
    Except.ok (db.posts.find? (fun p => p.id = id))
  else
    Except.error "CastError"

/-- JavaScript `x || old` for the string fields of the update handler
(server.js:179-180): an absent or empty-string value keeps the old one. -/
def jsOrKeep (x : Option String) (old : String) : String :=
  match x with
  | none => old
  | some s => if s = "" then old else s

/-- Splitting a character list at every space, as JavaScript
`String.prototype.split(" ")` does (adjacent separators yield empty pieces). -/
def splitSpaceAux : List Char → List Char → List String
  | [], acc => [String.mk acc.reverse]
  | c :: cs, acc =>
    if c = ' ' then String.mk acc.reverse :: splitSpaceAux cs []
    else splitSpaceAux cs (c :: acc)

/-- JavaScript `s.split(" ")`. -/
def splitSpace (s : String) : List String := splitSpaceAux s.toList []

/-- Token extraction of the auth middleware (server.js:59-60):
`authHeader && authHeader.split(" ")[1]`, with JavaScript falsiness: a missing
header, a missing second component, or an empty-string token all yield none. -/
def extractToken (authHeader : Option String) : Option String :=
  match authHeader with
  | none => none
  | some h =>
    match (splitSpace h).get? 1 with
    | none => none
    | some t => if t = "" then none else some t

/-- `authenticateToken` middleware (server.js:58-68): 401 when no token,
403 when verification fails, otherwise the decoded identity. -/
def authenticateToken (verify : String → Option Identity) (authHeader : Option String) :
    Except Response Identity :=
  match extractToken authHeader with
  | none => Except.error ⟨401, RespBody.msg "Access token required"⟩
  | some t =>
    match verify t with
    | none => Except.error ⟨403, RespBody.msg "Invalid token"⟩
    | some id => Except.ok id

/-- A protected endpoint: the middleware runs first; the route handler runs
only when it succeeds. -/
def runProtected (verify : String → Option Identity) (authHeader : Option String)
    (handler : Identity → DB → Response × DB) (db : DB) : Response × DB :=
  match authenticateToken verify authHeader with
  | Except.error r => (r, db)
  | Except.ok id => handler id db

/-- Mongoose validation of a User document at `user.save()`: every path of
userSchema (server.js:39-41) is a `required` String, and the required
validator rejects an empty string (as well as a missing value). -/
def User.validDoc (u : User) : Bool :=
  u.username != "" && u.email != "" && u.password != ""

/-- Mongoose validation of a Post document at `post.save()`: title, content
and authorName are `required` Strings (empty rejected), and author is a
`required` ObjectId, so its value must cast to a well-formed ObjectId
(postSchema, server.js:48-52). `image` is optional. -/
def Post.validDoc (p : Post) : Bool :=
  p.title != "" && p.content != "" && isValidObjectId p.author && p.authorName != ""

/-- POST /api/register (server.js:84-97). `newId` is the store-assigned id;
`now` the creation timestamp. The duplicate check runs first; `user.save()`
then validates the document, and a ValidationError is caught as 500. -/
def register (c : Crypto) (newId : String) (now : Nat) (db : DB)
    (username email password : String) : Response × DB :=
  if db.users.any (fun u => u.email = email || u.username = username) then
    (⟨400, RespBody.msg "User already exists"⟩, db)
  else
    let hashedPassword := c.hash password
    let user : User := ⟨newId, username, email, hashedPassword, now⟩
    if user.validDoc then
      (⟨201, RespBody.msg "User created successfully"⟩,
        { db with users := db.users ++ [user] })
    else
      (⟨500, RespBody.msgErr "Server error" "ValidationError"⟩, db)

/-- POST /api/login (server.js:100-120). -/
def login (c : Crypto) (db : DB) (email password : String) : Response :=
  match db.users.find? (fun u => u.email = email) with
  | none => ⟨400, RespBody.msg "Invalid credentials"⟩
  | some user =>
    if c.compare password user.password then
      ⟨200, RespBody.loginOk ⟨⟨user.id, user.username⟩, "24h"⟩
        ⟨user.id, user.username, user.email⟩⟩
    else
      ⟨400, RespBody.msg "Invalid credentials"⟩

/-- The relation `Post.find().sort(\x7b createdAt: -1 \x7d)` sorts by:
newest first. -/
def newerFirst (a b : Post) : Prop := b.createdAt ≤ a.createdAt

instance : DecidableRel newerFirst := fun a b => Nat.decLe b.createdAt a.createdAt

instance : IsTotal Post newerFirst :=
  ⟨fun a b => Nat.le_total b.createdAt a.createdAt⟩

instance : IsTrans Post newerFirst :=
  ⟨fun _ _ _ hab hbc => Nat.le_trans hbc hab⟩

/-- Sorting a post list newest-first, as the store does for
`.sort(\x7b createdAt: -1 \x7d)`. -/
def sortNewestFirst (ps : List Post) : List Post :=
  List.insertionSort newerFirst ps

/-- GET /api/posts (server.js:123-130). -/
def listAll (db : DB) : Response :=
  ⟨200, RespBody.manyPosts (sortNewestFirst db.posts)⟩

/-- GET /api/my-posts (server.js:71-78): `Post.find(\x7b author: req.user.userId \x7d)`
casts the filter value to ObjectId (CastError → 500 when ill-formed), then
sorts newest-first. -/
def myPosts (identity : Identity) (db : DB) : Response × DB :=
  if isValidObjectId identity.userId then
    (⟨200, RespBody.manyPosts
        (sortNewestFirst (db.posts.filter (fun p => p.author = identity.userId)))⟩, db)
  else
    (⟨500, RespBody.msgErr "Server error" "CastError"⟩, db)

/-- GET /api/posts/:id (server.js:133-141). -/
def getOne (db : DB) (id : String) : Response :=
  match findById db id with
  | Except.error e => ⟨500, RespBody.msgErr "Server error" e⟩
  | Except.ok none => ⟨404, RespBody.msg "Post not found"⟩
  | Except.ok (some p) => ⟨200, RespBody.onePost p⟩

/-- POST /api/posts (server.js:144-166): `file` is the uploaded file's
original name, if any; `now` is both `Date.now()` for the multer filename and
the document's creation timestamp; `newId` is store-assigned. `post.save()`
validates the document; a ValidationError (or a cast failure on the author
ObjectId) is caught as 500 and nothing is persisted. -/
def createPost (identity : Identity) (newId : String) (now : Nat)
    (title content : String) (file : Option String) (db : DB) : Response × DB :=
  let imagePath := file.map (fun orig => "/uploads/" ++ multerFilename now orig)
  let post : Post :=
    ⟨newId, title, content, imagePath, identity.userId, identity.username, now⟩
  if post.validDoc then
    (⟨201, RespBody.onePost post⟩, { db with posts := db.posts ++ [post] })
  else
    (⟨500, RespBody.msgErr "Server error" "ValidationError"⟩, db)

/-- The field mutation of the update handler (server.js:179-181):
`post.title = title || post.title; post.content = content || post.content;
if (req.file) post.image = "/uploads/" + req.file.filename`. -/
def applyUpdate (p : Post) (title content : Option String) (file : Option String)
    (now : Nat) : Post :=
  { p with
    title := jsOrKeep title p.title
    content := jsOrKeep content p.content
    image := match file with
      | some orig => some ("/uploads/" ++ multerFilename now orig)
      | none => p.image }

/-- PUT /api/posts/:id (server.js:170-188). `title`/`content` are the
possibly-absent body fields, `file` the uploaded file's original name.
The `post.save()` here revalidates the document, but on any store the server
can reach the stored fields already passed creation-time validation and the
`||`-semantics never empties a field, so that check cannot fire and is
elided. -/
def updatePost (identity : Identity) (id : String) (title content : Option String)
    (file : Option String) (now : Nat) (db : DB) : Response × DB :=
  match findById db id with
  | Except.error e => (⟨500, RespBody.msgErr "Server error" e⟩, db)
  | Except.ok none => (⟨404, RespBody.msg "Post not found"⟩, db)
  | Except.ok (some post) =>
    if post.author ≠ identity.userId then
      (⟨403, RespBody.msg "Not authorized"⟩, db)
    else
      let post' := applyUpdate post title content file now
      (⟨200, RespBody.onePost post'⟩,
        { db with posts := db.posts.map (fun q => if q.id = post.id then post' else q) })

/-- DELETE /api/posts/:id (server.js:191-204). -/
def deletePost (identity : Identity) (id : String) (db : DB) : Response × DB :=
  match findById db id with
  | Except.error e => (⟨500, RespBody.msgErr "Server error" e⟩, db)
  | Except.ok none => (⟨404, RespBody.msg "Post not found"⟩, db)
  | Except.ok (some post) =>
    if post.author ≠ identity.userId then
      (⟨403, RespBody.msg "Not authorized"⟩, db)
    else
      (⟨200, RespBody.msg "Post deleted successfully"⟩,
        { db with posts := db.posts.filter (fun q => ¬ q.id = id) })

/-- The list of string field values of the public user projection, used to
state that the password hash is not among them. -/
def UserProj.fields (p : UserProj) : List String := [p.id, p.username, p.email]

/-! Concrete fixtures used by the witness theorems. -/

/-- A concrete bcrypt model: hashing appends a marker; comparison recomputes. -/
def cryptoT : Crypto := ⟨fun s => s ++ "#", fun p h => h == p ++ "#"⟩

/-- A registered user with a valid 24-hex-character id. -/
def userA : User := ⟨"aaaaaaaaaaaaaaaaaaaaaaaa", "alice", "a@x.com", "pw1#", 5⟩

/-- A second registered user. -/
def userB : User := ⟨"bbbbbbbbbbbbbbbbbbbbbbbb", "bob", "b@x.com", "pw2#", 6⟩

/-- A post authored by `userA`. -/
def postA : Post :=
  ⟨"cccccccccccccccccccccccc", "Hi", "World", none, "aaaaaaaaaaaaaaaaaaaaaaaa", "alice", 10⟩

/-- A concrete store containing both users and `postA`. -/
def dbT : DB := ⟨[userA, userB], [postA]⟩

/-- The identity `userA` authenticates as. -/
def identA : Identity := ⟨"aaaaaaaaaaaaaaaaaaaaaaaa", "alice"⟩

/-- The identity `userB` authenticates as. -/
def identB : Identity := ⟨"bbbbbbbbbbbbbbbbbbbbbbbb", "bob"⟩

/-- A concrete token verifier: only the token string tokA verifies, as `identA`. -/
def verifyT : String → Option Identity :=
  fun t => if t = "tokA" then some identA else none

/-- A concrete route handler for exercising the auth middleware. -/
def handlerT : Identity → DB → Response × DB :=
  fun idn d => (⟨200, RespBody.msg idn.username⟩, d)

/-! ## Theorems -/

/-- Claim C2: the login failure response when no user with the given email
exists is identical (status 400, body "Invalid credentials") to the failure
response when the user exists but password verification fails, so an observer
cannot distinguish the two cases from the response. -/
theorem login_failure_indistinguishable (c : Crypto) (db₁ db₂ : DB)
    (e₁ p₁ e₂ p₂ : String)
    (h₁ : db₁.users.find? (fun u => u.email = e₁) = none)
    (h₂ : ∀ u, db₂.users.find? (fun v => v.email = e₂) = some u →
      c.compare p₂ u.password = false) :
    login c db₁ e₁ p₁ = ⟨400, RespBody.msg "Invalid credentials"⟩ ∧
    login c db₂ e₂ p₂ = ⟨400, RespBody.msg "Invalid credentials"⟩ ∧
    login c db₁ e₁ p₁ = login c db₂ e₂ p₂ := by
  have hA : login c db₁ e₁ p₁ = ⟨400, RespBody.msg "Invalid credentials"⟩ := by
    simp [login, h₁]
  have hB : login c db₂ e₂ p₂ = ⟨400, RespBody.msg "Invalid credentials"⟩ := by
    unfold login
    cases hf : db₂.users.find? (fun v => v.email = e₂) with
    | none => rfl
    | some u => simp [h₂ u hf]
  exact ⟨hA, hB, hA.trans hB.symm⟩

/-- Witness for C2: unknown email against an empty store vs wrong password
for an existing user produce the very same response. -/
theorem login_failure_indistinguishable_witness :
    login cryptoT ⟨[], []⟩ "x@x.com" "pw" = ⟨400, RespBody.msg "Invalid credentials"⟩ ∧
    login cryptoT dbT "a@x.com" "wrong" = ⟨400, RespBody.msg "Invalid credentials"⟩ ∧
    login cryptoT ⟨[], []⟩ "x@x.com" "pw" = login cryptoT dbT "a@x.com" "wrong" := by
  refine login_failure_indistinguishable cryptoT ⟨[], []⟩ dbT "x@x.com" "pw"
    "a@x.com" "wrong" rfl ?_
  intro u h
  have he : dbT.users.find? (fun v => v.email = "a@x.com") = some userA := by decide
  rw [he] at h
  injection h with h
  subst h
  decide

/-- Claim C5: on successful login the issued token's payload is exactly the
user's id and username with a 24-hour expiry, and the body is the token plus
the public projection (id, username, email), never the stored password hash. -/
theorem login_success_shape (c : Crypto) (db : DB) (email pw : String) (u : User)
    (hfind : db.users.find? (fun x => x.email = email) = some u)
    (hcmp : c.compare pw u.password = true) :
    login c db email pw =
      ⟨200, RespBody.loginOk ⟨⟨u.id, u.username⟩, "24h"⟩ ⟨u.id, u.username, u.email⟩⟩ ∧
    (∀ tok proj, login c db email pw = ⟨200, RespBody.loginOk tok proj⟩ →
      tok.payload = ⟨u.id, u.username⟩ ∧ tok.expiresIn = "24h" ∧
      proj.fields = [u.id, u.username, u.email] ∧
      (u.password ∉ [u.id, u.username, u.email] → u.password ∉ proj.fields)) := by
  have hmain : login c db email pw =
      ⟨200, RespBody.loginOk ⟨⟨u.id, u.username⟩, "24h"⟩ ⟨u.id, u.username, u.email⟩⟩ := by
    simp [login, hfind, hcmp]
  refine ⟨hmain, ?_⟩
  intro tok proj hEq
  rw [hmain] at hEq
  injection hEq with hs hb
  injection hb with ht hp
  subst ht
  subst hp
  refine ⟨rfl, rfl, rfl, ?_⟩
  intro hnp
  simpa [UserProj.fields] using hnp

/-- Witness for C5: alice logs in with the right password and gets the
expected token payload and public projection. -/
theorem login_success_shape_witness :
    login cryptoT dbT "a@x.com" "pw1" =
      ⟨200, RespBody.loginOk ⟨⟨userA.id, userA.username⟩, "24h"⟩
        ⟨userA.id, userA.username, userA.email⟩⟩ :=
  (login_success_shape cryptoT dbT "a@x.com" "pw1" userA (by decide) (by decide)).1

/-- Counterexample to claim C3 as stated: with an empty (but non-colliding)
username against the empty store, registration does not answer 201 and
persists nothing — `user.save()` fails schema validation and the handler
answers 500. -/
theorem register_validation_cex :
    (⟨[], []⟩ : DB).users.any (fun u => u.email = "c@x.com" || u.username = "") = false ∧
    register cryptoT "dddddddddddddddddddddddd" 7 ⟨[], []⟩ "" "c@x.com" "pw"
      = (⟨500, RespBody.msgErr "Server error" "ValidationError"⟩, ⟨[], []⟩) ∧
    (register cryptoT "dddddddddddddddddddddddd" 7 ⟨[], []⟩ "" "c@x.com" "pw").1.status
      ≠ 201 ∧
    (register cryptoT "dddddddddddddddddddddddd" 7 ⟨[], []⟩ "" "c@x.com" "pw").2.users
      = [] := by
  refine ⟨rfl, rfl, ?_, rfl⟩
  decide

/-- Claim C3 (amended): registration with a colliding email or username fails
with 400 and leaves the store unchanged; with no collision, when the
submitted username and email are non-empty and the password hash is non-empty
(so the document passes the schema's required-field validation; a bcrypt hash
is never empty), it succeeds with 201 and persists a new user whose stored
password is the hash (not the plaintext). Any newly persisted user carries
the hashed password. -/
theorem register_conflict_and_success (c : Crypto) (newId : String) (now : Nat)
    (db : DB) (un em pw : String) :
    ((∃ u ∈ db.users, u.email = em ∨ u.username = un) →
      register c newId now db un em pw = (⟨400, RespBody.msg "User already exists"⟩, db)) ∧
    (un ≠ "" → em ≠ "" → c.hash pw ≠ "" →
      (∀ u ∈ db.users, u.email ≠ em ∧ u.username ≠ un) →
      register c newId now db un em pw =
        (⟨201, RespBody.msg "User created successfully"⟩,
          { db with users := db.users ++ [⟨newId, un, em, c.hash pw, now⟩] })) ∧
    (∀ u', u' ∈ (register c newId now db un em pw).2.users → u' ∉ db.users →
      u'.password = c.hash pw ∧ (c.hash pw ≠ pw → u'.password ≠ pw)) := by
  by_cases hdup : db.users.any (fun u => u.email = em || u.username = un) = true
  · have hreg : register c newId now db un em pw =
        (⟨400, RespBody.msg "User already exists"⟩, db) := by
      simp [register, hdup]
    refine ⟨fun _ => hreg, ?_, ?_⟩
    · intro _ _ _ hnone
      obtain ⟨u, hu, hor⟩ := List.any_eq_true.mp hdup
      have hor' : u.email = em ∨ u.username = un := by simpa using hor
      rcases hor' with h | h
      · exact absurd h (hnone u hu).1
      · exact absurd h (hnone u hu).2
    · intro u' hmem hnot
      rw [hreg] at hmem
      exact absurd hmem hnot
  · cases hv : User.validDoc ⟨newId, un, em, c.hash pw, now⟩ with
    | false =>
      have hreg : register c newId now db un em pw =
          (⟨500, RespBody.msgErr "Server error" "ValidationError"⟩, db) := by
        simp [register, hdup, hv]
      refine ⟨?_, ?_, ?_⟩
      · intro ⟨u, hu, hor⟩
        exact absurd (List.any_eq_true.mpr ⟨u, hu, by simpa using hor⟩) hdup
      · intro hun hem hhash _
        simp [User.validDoc, hun, hem, hhash] at hv
      · intro u' hmem hnot
        rw [hreg] at hmem
        exact absurd hmem hnot
    | true =>
      have hreg : register c newId now db un em pw =
          (⟨201, RespBody.msg "User created successfully"⟩,
            { db with users := db.users ++ [⟨newId, un, em, c.hash pw, now⟩] }) := by
        simp [register, hdup, hv]
      refine ⟨?_, fun _ _ _ _ => hreg, ?_⟩
      · intro ⟨u, hu, hor⟩
        exact absurd (List.any_eq_true.mpr ⟨u, hu, by simpa using hor⟩) hdup
      · intro u' hmem hnot
        rw [hreg] at hmem
        simp only [List.mem_append, List.mem_singleton] at hmem
        rcases hmem with h | h
        · exact absurd h hnot
        · subst h
          exact ⟨rfl, fun hne => hne⟩

/-- Witness for C3: registering with alice's username fails with 400 and
leaves the store unchanged; a third distinct user with non-empty fields
succeeds with 201 and is stored with the hashed password. -/
theorem register_spec_witness :
    register cryptoT "dddddddddddddddddddddddd" 7 dbT "alice" "new@x.com" "pw"
        = (⟨400, RespBody.msg "User already exists"⟩, dbT) ∧
    register cryptoT "dddddddddddddddddddddddd" 7 dbT "carol" "c@x.com" "pw"
        = (⟨201, RespBody.msg "User created successfully"⟩,
            { dbT with users := dbT.users ++
                [⟨"dddddddddddddddddddddddd", "carol", "c@x.com", cryptoT.hash "pw", 7⟩] }) :=
  ⟨(register_conflict_and_success cryptoT "dddddddddddddddddddddddd" 7 dbT
      "alice" "new@x.com" "pw").1 ⟨userA, by decide, Or.inr rfl⟩,
   (register_conflict_and_success cryptoT "dddddddddddddddddddddddd" 7 dbT
      "carol" "c@x.com" "pw").2.1 (by decide) (by decide) (by decide) (by decide)⟩

/-- Claim C4: for a protected endpoint, when no token can be extracted from
the Authorization header the response is 401 and the handler is never invoked
(the result is the same for every handler); when extraction succeeds but
verification fails the response is 403; when verification succeeds the
handler runs with the decoded identity attached. -/
theorem authGuard_spec (verify : String → Option Identity) (ah : Option String)
    (db : DB) :
    (extractToken ah = none →
      ∀ hdl hdl₂ : Identity → DB → Response × DB,
        runProtected verify ah hdl db = (⟨401, RespBody.msg "Access token required"⟩, db) ∧
        runProtected verify ah hdl db = runProtected verify ah hdl₂ db) ∧
    (∀ t, extractToken ah = some t → verify t = none →
      ∀ hdl hdl₂ : Identity → DB → Response × DB,
        runProtected verify ah hdl db = (⟨403, RespBody.msg "Invalid token"⟩, db) ∧
        runProtected verify ah hdl db = runProtected verify ah hdl₂ db) ∧
    (∀ t idn, extractToken ah = some t → verify t = some idn →
      ∀ hdl : Identity → DB → Response × DB,
        runProtected verify ah hdl db = hdl idn db) := by
  refine ⟨?_, ?_, ?_⟩
  · intro hnone hdl hdl₂
    constructor <;> simp [runProtected, authenticateToken, hnone]
  · intro t hsome hver hdl hdl₂
    constructor <;> simp [runProtected, authenticateToken, hsome, hver]
  · intro t idn hsome hver hdl
    simp [runProtected, authenticateToken, hsome, hver]

/-- Witness for C4: a missing header gives 401 regardless of handler, a
bad token gives 403, and a valid token runs the handler as `identA`. -/
theorem authGuard_spec_witness :
    (runProtected verifyT none handlerT dbT
        = (⟨401, RespBody.msg "Access token required"⟩, dbT) ∧
      runProtected verifyT none handlerT dbT
        = runProtected verifyT none (fun _ d => (⟨204, RespBody.msg ""⟩, d)) dbT) ∧
    (runProtected verifyT (some "Bearer bad") handlerT dbT
        = (⟨403, RespBody.msg "Invalid token"⟩, dbT) ∧
      runProtected verifyT (some "Bearer bad") handlerT dbT
        = runProtected verifyT (some "Bearer bad")
            (fun _ d => (⟨204, RespBody.msg ""⟩, d)) dbT) ∧
    runProtected verifyT (some "Bearer tokA") handlerT dbT = handlerT identA dbT :=
  ⟨(authGuard_spec verifyT none dbT).1 rfl handlerT _,
   (authGuard_spec verifyT (some "Bearer bad") dbT).2.1 "bad" rfl rfl handlerT _,
   (authGuard_spec verifyT (some "Bearer tokA") dbT).2.2 "tokA" identA rfl rfl handlerT⟩

/-- Claim C1: for a stored post `P` and any authenticated identity whose
userId differs from `P.author`, both update and delete respond 403
"Not authorized" and leave the store unchanged. -/
theorem update_delete_forbidden (idn : Identity) (db : DB) (P : Post)
    (title content file : Option String) (now : Nat)
    (hvalid : isValidObjectId P.id = true)
    (hfind : db.posts.find? (fun p => p.id = P.id) = some P)
    (hne : idn.userId ≠ P.author) :
    updatePost idn P.id title content file now db
      = (⟨403, RespBody.msg "Not authorized"⟩, db) ∧
    deletePost idn P.id db = (⟨403, RespBody.msg "Not authorized"⟩, db) := by
  have hne' : P.author ≠ idn.userId := fun h => hne h.symm
  constructor <;> simp [updatePost, deletePost, findById, hvalid, hfind, hne']

/-- Witness for C1: bob (not the author) attempts to update and delete
alice's post; both fail with 403 and the store is unchanged. -/
theorem update_delete_forbidden_witness :
    updatePost identB postA.id (some "X") (some "Y") none 99 dbT
      = (⟨403, RespBody.msg "Not authorized"⟩, dbT) ∧
    deletePost identB postA.id dbT = (⟨403, RespBody.msg "Not authorized"⟩, dbT) :=
  update_delete_forbidden identB dbT postA (some "X") (some "Y") none 99
    (by decide) (by decide) (by decide)

/-- Claim C6: when the author updates their post, an absent or empty title
(resp. content) keeps the stored value, a supplied image file replaces the
image reference with the new uploads path, the author, authorName and
createdAt fields are unchanged, and the updated post is returned with 200
and written back to the store. -/
theorem update_by_author_frame (idn : Identity) (db : DB) (P : Post)
    (title content file : Option String) (now : Nat)
    (hvalid : isValidObjectId P.id = true)
    (hfind : db.posts.find? (fun p => p.id = P.id) = some P)
    (hown : idn.userId = P.author) :
    updatePost idn P.id title content file now db =
      (⟨200, RespBody.onePost (applyUpdate P title content file now)⟩,
        { db with posts := db.posts.map (fun q =>
            if q.id = P.id then applyUpdate P title content file now else q) }) ∧
    ((title = none ∨ title = some "") →
      (applyUpdate P title content file now).title = P.title) ∧
    ((content = none ∨ content = some "") →
      (applyUpdate P title content file now).content = P.content) ∧
    (∀ orig, file = some orig →
      (applyUpdate P title content file now).image
        = some ("/uploads/" ++ multerFilename now orig)) ∧
    (applyUpdate P title content file now).author = P.author ∧
    (applyUpdate P title content file now).authorName = P.authorName ∧
    (applyUpdate P title content file now).createdAt = P.createdAt := by
  have hauth : ¬ P.author ≠ idn.userId := fun h => h hown.symm
  refine ⟨by simp [updatePost, findById, hvalid, hfind, hauth], ?_, ?_, ?_, rfl, rfl, rfl⟩
  · rintro (rfl | rfl) <;> simp [applyUpdate, jsOrKeep]
  · rintro (rfl | rfl) <;> simp [applyUpdate, jsOrKeep]
  · rintro orig rfl
    simp [applyUpdate]

/-- Witness for C6: alice updates her own post with an empty title, a new
content and a fresh image; the title survives, the rest is replaced and the
unrelated fields are untouched. -/
theorem update_by_author_frame_witness :
    updatePost identA postA.id (some "") (some "Fresh") (some "pic.png") 42 dbT =
      (⟨200, RespBody.onePost (applyUpdate postA (some "") (some "Fresh") (some "pic.png") 42)⟩,
        { dbT with posts := dbT.posts.map (fun q =>
            if q.id = postA.id
              then applyUpdate postA (some "") (some "Fresh") (some "pic.png") 42 else q) }) ∧
    (applyUpdate postA (some "") (some "Fresh") (some "pic.png") 42).title = postA.title ∧
    (applyUpdate postA (some "") (some "Fresh") (some "pic.png") 42).image
      = some ("/uploads/" ++ multerFilename 42 "pic.png") ∧
    (applyUpdate postA (some "") (some "Fresh") (some "pic.png") 42).author = postA.author :=
  have h := update_by_author_frame identA dbT postA (some "") (some "Fresh")
    (some "pic.png") 42 (by decide) (by decide) (by decide)
  ⟨h.1, h.2.1 (Or.inr rfl), h.2.2.2.1 "pic.png" rfl, h.2.2.2.2.1⟩

/-- Counterexample to claim C7 as stated: with an empty title (identity and
content well-formed), creation does not produce a post at all — `post.save()`
fails schema validation, the handler answers 500 and nothing is persisted,
both with and without an uploaded image. -/
theorem createPost_validation_cex :
    createPost identA "dddddddddddddddddddddddd" 9 "" "World" none dbT
      = (⟨500, RespBody.msgErr "Server error" "ValidationError"⟩, dbT) ∧
    createPost identA "dddddddddddddddddddddddd" 9 "" "World" (some "pic.png") dbT
      = (⟨500, RespBody.msgErr "Server error" "ValidationError"⟩, dbT) ∧
    (createPost identA "dddddddddddddddddddddddd" 9 "" "World" none dbT).1.status ≠ 201 ∧
    (createPost identA "dddddddddddddddddddddddd" 9 "" "World" none dbT).2.posts
      = dbT.posts := by
  refine ⟨rfl, rfl, ?_, rfl⟩
  decide

/-- Claim C7 (amended): for an identity as issued by this server (valid
ObjectId userId, non-empty username) and non-empty title and content — so
the document passes schema validation — a created post records the uploaded
image under the uploads path with a name built from the current time plus the
original file extension; with no upload the image field is absent. In both
cases the post is persisted with author and authorName taken from the
identity. An empty title or content instead fails validation at save and the
request answers 500 with nothing persisted. -/
theorem createPost_image (idn : Identity) (newId : String) (now : Nat)
    (title content : String) (db : DB)
    (htitle : title ≠ "") (hcontent : content ≠ "")
    (hauthor : isValidObjectId idn.userId = true) (hname : idn.username ≠ "") :
    (∀ orig, createPost idn newId now title content (some orig) db =
      (⟨201, RespBody.onePost ⟨newId, title, content,
          some ("/uploads/" ++ (toString now ++ extname orig)),
          idn.userId, idn.username, now⟩⟩,
        { db with posts := db.posts ++ [⟨newId, title, content,
            some ("/uploads/" ++ (toString now ++ extname orig)),
            idn.userId, idn.username, now⟩] })) ∧
    createPost idn newId now title content none db =
      (⟨201, RespBody.onePost ⟨newId, title, content, none,
          idn.userId, idn.username, now⟩⟩,
        { db with posts := db.posts ++ [⟨newId, title, content, none,
            idn.userId, idn.username, now⟩] }) := by
  have hv : ∀ img : Option String,
      Post.validDoc ⟨newId, title, content, img, idn.userId, idn.username, now⟩ = true := by
    intro img
    simp [Post.validDoc, htitle, hcontent, hauthor, hname]
  constructor
  · intro orig
    simp [createPost, hv, multerFilename]
  · simp [createPost, hv]

/-- Witness for C7: alice creates a post with an image; the stored image path
is the uploads path of the time-based name with the original extension. -/
theorem createPost_image_witness :
    createPost identA "dddddddddddddddddddddddd" 9 "Hi" "World" (some "pic.png") dbT
      = (⟨201, RespBody.onePost ⟨"dddddddddddddddddddddddd", "Hi", "World",
          some ("/uploads/" ++ (toString 9 ++ extname "pic.png")),
          identA.userId, identA.username, 9⟩⟩,
        { dbT with posts := dbT.posts ++ [⟨"dddddddddddddddddddddddd", "Hi", "World",
            some ("/uploads/" ++ (toString 9 ++ extname "pic.png")),
            identA.userId, identA.username, 9⟩] }) :=
  (createPost_image identA "dddddddddddddddddddddddd" 9 "Hi" "World" dbT
    (by decide) (by decide) (by decide) (by decide)).1 "pic.png"

/-- Claim C8: ListAll returns every stored post (as a permutation of the
store, so membership is preserved both ways) and the returned sequence is
non-increasing in creation time: adjacent posts satisfy newest-first. -/
theorem listAll_sorted_complete (db : DB) :
    listAll db = ⟨200, RespBody.manyPosts (sortNewestFirst db.posts)⟩ ∧
    List.Perm (sortNewestFirst db.posts) db.posts ∧
    (∀ p : Post, p ∈ sortNewestFirst db.posts ↔ p ∈ db.posts) ∧
    (sortNewestFirst db.posts).Pairwise newerFirst ∧
    (sortNewestFirst db.posts).Chain' (fun a b => b.createdAt ≤ a.createdAt) := by
  have hperm : List.Perm (sortNewestFirst db.posts) db.posts :=
    List.perm_insertionSort _ _
  have hsort : List.Sorted newerFirst (sortNewestFirst db.posts) :=
    List.sorted_insertionSort newerFirst db.posts
  exact ⟨rfl, hperm, fun p => hperm.mem_iff, hsort, hsort.chain'⟩

/-- Claim C9: ListMine returns exactly the posts whose author is the
authenticated identity's userId — none by another author, none of the
identity's posts omitted — in newest-first order. -/
theorem myPosts_spec (idn : Identity) (db : DB)
    (hvalid : isValidObjectId idn.userId = true) :
    myPosts idn db = (⟨200, RespBody.manyPosts
        (sortNewestFirst (db.posts.filter (fun p => p.author = idn.userId)))⟩, db) ∧
    (∀ p : Post,
      p ∈ sortNewestFirst (db.posts.filter (fun p => p.author = idn.userId)) ↔
        p ∈ db.posts ∧ p.author = idn.userId) ∧
    (sortNewestFirst (db.posts.filter (fun p => p.author = idn.userId))).Pairwise
      newerFirst := by
  refine ⟨by simp [myPosts, hvalid], ?_, List.sorted_insertionSort _ _⟩
  intro p
  simp [sortNewestFirst, List.mem_filter]

/-- Witness for C9: alice's post list over the concrete store. -/
theorem myPosts_spec_witness :
    myPosts identA dbT = (⟨200, RespBody.manyPosts
        (sortNewestFirst (dbT.posts.filter (fun p => p.author = identA.userId)))⟩, dbT) :=
  (myPosts_spec identA dbT (by decide)).1

/-- Claim C10: an ill-formed `:id` makes the lookup throw a cast error, so
GetOne, Update and Delete answer 500 (never 404); 404 arises exactly for a
well-formed identifier matching no post. -/
theorem invalid_id_error_handling (db : DB) (id : String) (idn : Identity)
    (title content file : Option String) (now : Nat) :
    (isValidObjectId id = false →
      getOne db id = ⟨500, RespBody.msgErr "Server error" "CastError"⟩ ∧
      updatePost idn id title content file now db
        = (⟨500, RespBody.msgErr "Server error" "CastError"⟩, db) ∧
      deletePost idn id db = (⟨500, RespBody.msgErr "Server error" "CastError"⟩, db)) ∧
    (isValidObjectId id = true → db.posts.find? (fun p => p.id = id) = none →
      getOne db id = ⟨404, RespBody.msg "Post not found"⟩ ∧
      updatePost idn id title content file now db
        = (⟨404, RespBody.msg "Post not found"⟩, db) ∧
      deletePost idn id db = (⟨404, RespBody.msg "Post not found"⟩, db)) ∧
    (getOne db id = ⟨404, RespBody.msg "Post not found"⟩ ↔
      isValidObjectId id = true ∧ db.posts.find? (fun p => p.id = id) = none) := by
  refine ⟨?_, ?_, ?_⟩
  · intro hinv
    refine ⟨?_, ?_, ?_⟩ <;> simp [getOne, updatePost, deletePost, findById, hinv]
  · intro hval hnone
    refine ⟨?_, ?_, ?_⟩ <;>
      simp [getOne, updatePost, deletePost, findById, hval, hnone]
  · constructor
    · intro h
      by_cases hval : isValidObjectId id = true
      · cases hf : db.posts.find? (fun p => p.id = id) with
        | none => exact ⟨hval, rfl⟩
        | some p => simp [getOne, findById, hval, hf] at h
      · have hval' : isValidObjectId id = false := by simpa using hval
        simp [getOne, findById, hval'] at h
    · rintro ⟨hval, hnone⟩
      simp [getOne, findById, hval, hnone]

/-- Witness for C10: the ill-formed id "abc" yields 500 on read and delete,
while a well-formed but absent id yields 404. -/
theorem invalid_id_error_handling_witness :
    getOne dbT "abc" = ⟨500, RespBody.msgErr "Server error" "CastError"⟩ ∧
    deletePost identA "abc" dbT
      = (⟨500, RespBody.msgErr "Server error" "CastError"⟩, dbT) ∧
    getOne dbT "ffffffffffffffffffffffff" = ⟨404, RespBody.msg "Post not found"⟩ :=
  have h₁ := invalid_id_error_handling dbT "abc" identA none none none 0
  have h₂ := invalid_id_error_handling dbT "ffffffffffffffffffffffff" identA
    none none none 0
  ⟨(h₁.1 (by decide)).1, (h₁.1 (by decide)).2.2, (h₂.2.1 (by decide) (by decide)).1⟩

end Blog
